import Mathlib

/-!
Shallow embedding of the core of the `healthlink-ai` repository:

* the AI Brain provider dispatcher (`server/services/aiBrain.ts`,
  here `src/unnamed/part_008`): provider registry, `selectProvider`,
  `process`;
* the in-memory clinic store search operations
  (`server/storage.ts`, here `src/unnamed/part_001`): `searchClinics`,
  `getClinicsByLocation` with its inner `calculateDistance` haversine;
* the branch selection of the `POST /api/clinics/search` route handler
  (`server/routes.ts`, here `src/unnamed/part_002`).

Modelling conventions:
* JavaScript numbers used for geometry are idealised as real numbers `ℝ`;
  `NaN` (the result of `parseFloat` on a non-numeric stored coordinate)
  is modelled as `Option.none`, and every comparison `NaN <= x` is
  `false`, as in JS.
* JS `Map` iteration order is insertion order, so the registry is a list
  of providers in registration order, and `Array.from(map.values())` is
  that list.
* `Array.prototype.sort` is stable (ECMAScript 2019); it is embedded as
  `List.insertionSort`, which is stable, with the relation induced by the
  numeric comparator.
* `async`/`try`/`catch` provider calls are embedded as `Except String`;
  `Date.now()` differences (the measured `responseTime`) enter as an
  explicit parameter `t`.
-/

namespace HealthLink

/-! ### Data model of the dispatcher (`src/unnamed/part_008`) -/

/-- A JS-like JSON value, used for the opaque `any` payloads that flow
through the dispatcher (`request.input`, provider results). -/
inductive Value : Type where
  | vnull : Value
  | vbool : Bool → Value
  | vnum : ℚ → Value
  | vstr : String → Value
  | vobj : List (String × Value) → Value
  | varr : List Value → Value

/-- JS property access `v.k`: field lookup on an object, `undefined`
(here `vnull`) otherwise. -/
def Value.get (v : Value) (k : String) : Value :=
  match v with
  | .vobj fields =>
    match fields.find? (fun p => p.1 == k) with
    | some p => p.2
    | none => .vnull
  | _ => .vnull

/-- The `requestType` union of `AIBrainRequest`
(`'chat' | 'analysis' | 'prediction' | 'education' | 'emotion' |
'nutrition' | 'fitness' | 'mental_health'`). -/
inductive RequestType : Type where
  | chat | analysis | prediction | education | emotion
  | nutrition | fitness | mental_health
deriving DecidableEq

/-- The string a `RequestType` interpolates to in a JS template literal. -/
def RequestType.toStr : RequestType → String
  | .chat => "chat"
  | .analysis => "analysis"
  | .prediction => "prediction"
  | .education => "education"
  | .emotion => "emotion"
  | .nutrition => "nutrition"
  | .fitness => "fitness"
  | .mental_health => "mental_health"

/-- The `IAIProvider` interface: descriptor fields plus the five
capability methods.  A method that throws/rejects is an
`Except.error` carrying the error message. -/
structure IAIProvider : Type where
  name : String
  isActive : Bool
  priority : Int
  rateLimit : Int
  chat : Value → Value → Except String Value
  analyze : Value → String → Except String Value
  predict : Value → Except String Value
  educate : Value → Except String Value
  processEmotion : Value → Value → Except String Value

/-- The `AIBrainRequest` interface. -/
structure AIBrainRequest : Type where
  userId : Option String
  requestType : RequestType
  specialization : String
  input : Value
  priority : Option Int
  fallback : Option Bool

/-- The `AIBrainResponse` envelope.  Optional fields absent from a JS
object literal are `none`. -/
structure AIBrainResponse : Type where
  success : Bool
  data : Option Value
  error : Option String
  provider : String
  model : String
  responseTime : Nat
  tokensUsed : Option Nat
  cost : Option String

/-! ### Dispatcher operations -/

/-- The comparator `(a, b) => b.priority - a.priority` orders `a` before
`b` exactly when `b.priority ≤ a.priority` (descending priority). -/
def priorityDesc (a b : IAIProvider) : Prop := b.priority ≤ a.priority

instance : DecidableRel priorityDesc := fun a b =>
  inferInstanceAs (Decidable (b.priority ≤ a.priority))

instance : IsTotal IAIProvider priorityDesc :=
  ⟨fun a b => le_total b.priority a.priority⟩

instance : IsTrans IAIProvider priorityDesc :=
  ⟨fun _ _ _ h1 h2 => le_trans h2 h1⟩

/-- Embedding of `AIBrain.selectProvider`: filter the registered providers (in
registration order) by `isActive`, stable-sort descending by `priority`,
return the first (`availableProviders[0] || null`).  The `request`
argument is accepted but, as in the source, unused. -/
def selectProvider (providers : List IAIProvider) (_request : AIBrainRequest) :
    Option IAIProvider :=
  (((providers.filter (fun p => p.isActive)).insertionSort priorityDesc)).head?

/-- The `switch (request.requestType)` body of `AIBrain.process`: invoke
the capability method matching the request kind; the `default` branch
throws `Unsupported request type: ...`. -/
def dispatchCall (provider : IAIProvider) (request : AIBrainRequest) :
    Except String Value :=
  match request.requestType with
  | .chat => provider.chat (request.input.get "messages") (request.input.get "options")
  | .analysis => provider.analyze request.input request.specialization
  | .prediction => provider.predict request.input
  | .education => provider.educate (request.input.get "query")
  | .emotion => provider.processEmotion (request.input.get "data") (request.input.get "type")
  | other => .error ("Unsupported request type: " ++ other.toStr)

/-- Embedding of `AIBrain.process`: select a provider (a `null` selection throws
`'No suitable AI provider available'`, caught by the surrounding
`try`/`catch`), invoke the matching method, and wrap the outcome in an
`AIBrainResponse`.  `t` is the measured elapsed time `Date.now() - startTime`. -/
def process (t : Nat) (providers : List IAIProvider) (request : AIBrainRequest) :
    AIBrainResponse :=
  match selectProvider providers request with
  | none =>
    { success := false, data := none,
      error := some "No suitable AI provider available",
      provider := "unknown", model := "unknown",
      responseTime := t, tokensUsed := none, cost := none }
  | some provider =>
    match dispatchCall provider request with
    | .ok result =>
      { success := true, data := some result, error := none,
        provider := provider.name, model := "default",
        responseTime := t, tokensUsed := none, cost := none }
    | .error msg =>
      { success := false, data := none, error := some msg,
        provider := "unknown", model := "unknown",
        responseTime := t, tokensUsed := none, cost := none }

/-- A provider-method invocation recorded by the instrumented
dispatcher: which provider and which capability method was called. -/
structure CallEvent : Type where
  providerName : String
  method : String
deriving DecidableEq

/-- The `dispatchCall` embedding instrumented with the list of provider-method
invocations it performs (the `default` branch calls nothing). -/
def dispatchCallTr (provider : IAIProvider) (request : AIBrainRequest) :
    Except String Value × List CallEvent :=
  match request.requestType with
  | .chat =>
    (provider.chat (request.input.get "messages") (request.input.get "options"),
     [⟨provider.name, "chat"⟩])
  | .analysis =>
    (provider.analyze request.input request.specialization, [⟨provider.name, "analyze"⟩])
  | .prediction => (provider.predict request.input, [⟨provider.name, "predict"⟩])
  | .education => (provider.educate (request.input.get "query"), [⟨provider.name, "educate"⟩])
  | .emotion =>
    (provider.processEmotion (request.input.get "data") (request.input.get "type"),
     [⟨provider.name, "processEmotion"⟩])
  | other => (.error ("Unsupported request type: " ++ other.toStr), [])

/-- The `process` embedding instrumented with the list of provider-method invocations
performed during the call. -/
def processTr (t : Nat) (providers : List IAIProvider) (request : AIBrainRequest) :
    AIBrainResponse × List CallEvent :=
  match selectProvider providers request with
  | none =>
    ({ success := false, data := none,
       error := some "No suitable AI provider available",
       provider := "unknown", model := "unknown",
       responseTime := t, tokensUsed := none, cost := none }, [])
  | some provider =>
    match dispatchCallTr provider request with
    | (.ok result, tr) =>
      ({ success := true, data := some result, error := none,
         provider := provider.name, model := "default",
         responseTime := t, tokensUsed := none, cost := none }, tr)
    | (.error msg, tr) =>
      ({ success := false, data := none, error := some msg,
         provider := "unknown", model := "unknown",
         responseTime := t, tokensUsed := none, cost := none }, tr)

/-- Demonstration registry for the scenario in C1: provider `"a"` with
priority 5 active. -/
def demoProviderA : IAIProvider :=
  { name := "a", isActive := true, priority := 5, rateLimit := 60,
    chat := fun _ _ => .ok .vnull, analyze := fun _ _ => .ok .vnull,
    predict := fun _ => .ok .vnull, educate := fun _ => .ok .vnull,
    processEmotion := fun _ _ => .ok .vnull }

/-- Inactive high-priority provider `"b"` of the C1 scenario. -/
def demoProviderB : IAIProvider :=
  { demoProviderA with name := "b", isActive := false, priority := 9 }

/-- A provider whose `analyze` method rejects with message `"boom"`. -/
def demoFailingProvider : IAIProvider :=
  { demoProviderA with name := "f", analyze := fun _ _ => .error "boom" }

/-- A concrete request used to instantiate dispatcher theorems. -/
def demoRequest : AIBrainRequest :=
  { userId := none, requestType := .analysis, specialization := "symptoms",
    input := .vnull, priority := none, fallback := none }

/-! ### Geospatial clinic search (`src/unnamed/part_001`) -/

/-- JS `Math.atan2(y, x)` over ideal reals (`Math.atan2(0, 0) = 0`). -/
noncomputable def atan2 (y x : ℝ) : ℝ :=
  if 0 < x then Real.arctan (y / x)
  else if x < 0 ∧ 0 ≤ y then Real.arctan (y / x) + Real.pi
  else if x < 0 ∧ y < 0 then Real.arctan (y / x) - Real.pi
  else if x = 0 ∧ 0 < y then Real.pi / 2
  else if x = 0 ∧ y < 0 then -(Real.pi / 2)
  else 0

/-- The intermediate `a` of `calculateDistance`:
`sin(dLat/2)·sin(dLat/2) + cos(lat1·π/180)·cos(lat2·π/180)·sin(dLon/2)·sin(dLon/2)`
with `dLat = (lat2-lat1)·π/180` and `dLon = (lon2-lon1)·π/180`. -/
noncomputable def havA (lat1 lon1 lat2 lon2 : ℝ) : ℝ :=
  Real.sin ((lat2 - lat1) * Real.pi / 180 / 2) *
      Real.sin ((lat2 - lat1) * Real.pi / 180 / 2) +
    Real.cos (lat1 * Real.pi / 180) * Real.cos (lat2 * Real.pi / 180) *
      Real.sin ((lon2 - lon1) * Real.pi / 180 / 2) *
      Real.sin ((lon2 - lon1) * Real.pi / 180 / 2)

/-- The inner `calculateDistance` of `getClinicsByLocation`: haversine
distance with Earth radius `R = 3959` miles and
`c = 2 · atan2(√a, √(1−a))`; the result is `R · c`. -/
noncomputable def calculateDistance (lat1 lon1 lat2 lon2 : ℝ) : ℝ :=
  3959 * (2 * atan2 (Real.sqrt (havA lat1 lon1 lat2 lon2))
    (Real.sqrt (1 - havA lat1 lon1 lat2 lon2)))

/-- A stored clinic.  `latitude`/`longitude` are stored as text and
parsed on read with `parseFloat`; we embed the parse result: `some v`
when the text parses to the number `v`, `none` when it yields `NaN`. -/
structure Clinic : Type where
  id : String
  name : String
  address : String
  latitude : Option ℝ
  longitude : Option ℝ
  type : String
  rating : Option Int
  hours : Option String
  phone : Option String
  website : Option String

/-- A `{clinic, distance}` pair; `distance = none` models a `NaN`
distance produced from a malformed stored coordinate. -/
structure ClinicSearchResult : Type where
  clinic : Clinic
  distance : Option ℝ

/-- Embedding of `calculateDistance(latitude, longitude, parseFloat(clinic.latitude),
parseFloat(clinic.longitude))`: `NaN` stored coordinates propagate to a
`NaN` (`none`) distance, since every IEEE operation in the formula
propagates `NaN`. -/
noncomputable def clinicDistance (latitude longitude : ℝ) (c : Clinic) : Option ℝ :=
  match c.latitude, c.longitude with
  | some lat2, some lon2 => some (calculateDistance latitude longitude lat2 lon2)
  | _, _ => none

/-- Ordering on possibly-`NaN` distances induced by the comparator
`(a, b) => a.distance - b.distance`.  Only `some`/`some` comparisons are
ever reached after the radius filter; `none` is ordered first to make
the relation total. -/
def optLe (a b : Option ℝ) : Prop :=
  match a, b with
  | none, _ => True
  | some _, none => False
  | some x, some y => x ≤ y

noncomputable instance optLe.instDecidableRel : DecidableRel optLe
  | none, _ => isTrue trivial
  | some _, none => isFalse id
  | some x, some y => inferInstanceAs (Decidable (x ≤ y))

/-- The sort relation of `getClinicsByLocation`: ascending by distance. -/
def distLe (a b : ClinicSearchResult) : Prop := optLe a.distance b.distance

noncomputable instance : DecidableRel distLe := fun a b =>
  inferInstanceAs (Decidable (optLe a.distance b.distance))

instance : IsTotal ClinicSearchResult distLe := by
  constructor
  intro a b
  unfold distLe optLe
  cases a.distance with
  | none => exact Or.inl trivial
  | some x =>
    cases b.distance with
    | none => exact Or.inr trivial
    | some y => exact le_total x y

instance : IsTrans ClinicSearchResult distLe := by
  constructor
  intro a b c
  unfold distLe optLe
  rcases a.distance with _ | x <;> rcases b.distance with _ | y <;>
    rcases c.distance with _ | z <;> intro hab hbc <;>
    first
    | trivial
    | exact False.elim hab
    | exact False.elim hbc
    | exact le_trans hab hbc

/-- The radius filter predicate of `getClinicsByLocation`:
`result.distance <= radius`, which is `false` when the distance is `NaN`. -/
noncomputable def withinRadius (radius : ℝ) (result : ClinicSearchResult) : Bool :=
  match result.distance with
  | some d => decide (d ≤ radius)
  | none => false

/-- Embedding of `MemStorage.getClinicsByLocation`: map every stored clinic (in
insertion order) to a `{clinic, distance}` pair, keep those with
`distance <= radius`, and stable-sort ascending by distance. -/
noncomputable def getClinicsByLocation (latitude longitude radius : ℝ)
    (clinics : List Clinic) : List ClinicSearchResult :=
  (((clinics.map (fun clinic => ⟨clinic, clinicDistance latitude longitude clinic⟩)).filter
    (withinRadius radius)).insertionSort distLe)

/-! ### Text search (`MemStorage.searchClinics`) -/

/-- Does `l` start with `pat`?  (Embedding of the prefix check underlying
JS `String.prototype.includes`.) -/
def charsStartWith : List Char → List Char → Bool
  | _, [] => true
  | [], _ :: _ => false
  | c :: cs, d :: ds => c == d && charsStartWith cs ds

/-- Does `l` contain `pat` as a contiguous run?  (JS
`String.prototype.includes` on the underlying character lists.) -/
def charsInclude (pat : List Char) : List Char → Bool
  | [] => pat.isEmpty
  | c :: cs => charsStartWith (c :: cs) pat || charsInclude pat cs

/-- JS `hay.includes(ned)`. -/
def strIncludes (hay ned : String) : Bool := charsInclude ned.data hay.data

/-- JS `s.toLowerCase()`: character-wise lowercasing (the embedding of
`String.map Char.toLower`, written on the character list so that it
reduces on literals). -/
def strToLower (s : String) : String := ⟨s.data.map Char.toLower⟩

/-- Embedding of `MemStorage.searchClinics`: keep the clinics (in insertion order)
whose lower-cased name or address contains the lower-cased query, and —
when `type` is truthy (`!type ||` in the source, so `undefined` and `""`
both disable the filter) — whose `type` field equals it exactly. -/
def searchClinics (query : String) (type? : Option String) (clinics : List Clinic) :
    List Clinic :=
  clinics.filter (fun clinic =>
    (strIncludes (strToLower clinic.name) (strToLower query) ||
      strIncludes (strToLower clinic.address) (strToLower query)) &&
    (match type? with
     | none => true
     | some t => (t == "") || (clinic.type == t)))

/-- Spec-side reading: `ned` occurs as a contiguous substring of `hay`. -/
def SubstrOf (ned hay : String) : Prop :=
  ∃ pre post : List Char, hay.data = pre ++ ned.data ++ post

/-- Spec-side reading of the C6 text condition: the query occurs
case-insensitively in the clinic's name or address. -/
def MatchesQuerySpec (query : String) (c : Clinic) : Prop :=
  SubstrOf (strToLower query) (strToLower c.name) ∨
    SubstrOf (strToLower query) (strToLower c.address)

/-- Spec-side reading of the (amended) C6 type condition: exact category
match whenever a non-empty type filter is supplied. -/
def MatchesTypeSpec (type? : Option String) (c : Clinic) : Prop :=
  ∀ t, type? = some t → t ≠ "" → c.type = t

/-- A clinic with malformed (non-numeric) stored coordinates, used for
the C6 counterexample and the C7 witness. -/
def demoClinic : Clinic :=
  { id := "c1", name := "abc", address := "main road", latitude := none,
    longitude := none, type := "hospital", rating := none, hours := none,
    phone := none, website := none }

/-! ### `POST /api/clinics/search` branch selection (`src/unnamed/part_002`) -/

/-- The four branches of the search handler. -/
inductive SearchBranch : Type where
  | geocode | coords | text | all
deriving DecidableEq

/-- JS truthiness of an optional number (absent, `0` are falsy).  Request
body numbers (JSON doubles validated by zod) are modelled as rationals. -/
def numTruthy : Option ℚ → Bool
  | none => false
  | some v => !(v == 0)

/-- JS truthiness of an optional string (absent, `""` are falsy). -/
def strTruthy : Option String → Bool
  | none => false
  | some s => !(s == "")

/-- The branch structure of the `POST /api/clinics/search` handler:
`if (location && (!latitude || !longitude)) … else if (latitude &&
longitude) … else if (query) … else …`. -/
def clinicsSearchBranch (location : Option String) (latitude longitude : Option ℚ)
    (query : Option String) : SearchBranch :=
  if strTruthy location && (!numTruthy latitude || !numTruthy longitude) then .geocode
  else if numTruthy latitude && numTruthy longitude then .coords
  else if strTruthy query then .text
  else .all

/-! ### Theorems -/

/-- The head of the descending-priority stable sort is the first element
of the list whose priority is maximal: every element strictly before it
in the original order has strictly smaller priority. -/
theorem insertionSort_head_firstMax :
    ∀ (l : List IAIProvider) (p : IAIProvider),
      (l.insertionSort priorityDesc).head? = some p →
      ∃ l1 l2, l = l1 ++ p :: l2 ∧ ∀ q ∈ l1, q.priority < p.priority := by
  intro l
  induction l with
  | nil => intro p h; simp [List.insertionSort] at h
  | cons x xs ih =>
    intro p h
    rw [List.insertionSort] at h
    cases hs : xs.insertionSort priorityDesc with
    | nil =>
      rw [hs] at h
      simp only [List.orderedInsert, List.head?, Option.some.injEq] at h
      exact ⟨[], xs, by simp [h], by simp⟩
    | cons y t =>
      rw [hs, List.orderedInsert] at h
      by_cases hxy : priorityDesc x y
      · rw [if_pos hxy] at h
        simp only [List.head?, Option.some.injEq] at h
        exact ⟨[], xs, by simp [h], by simp⟩
      · rw [if_neg hxy] at h
        simp only [List.head?, Option.some.injEq] at h
        obtain ⟨l1, l2, hx, hq⟩ := ih p (by rw [hs, ← h]; rfl)
        refine ⟨x :: l1, l2, by rw [hx]; rfl, ?_⟩
        intro q hqmem
        rcases List.mem_cons.mp hqmem with rfl | hq1
        · exact h ▸ lt_of_not_le hxy
        · exact hq q hq1

/-- C1: `selectProvider` returns the provider with the strictly highest
priority among those with `isActive == true`; on a priority tie the
first-registered active provider wins; a provider with
`isActive == false` is never returned (the returned provider always has
`isActive = true`). -/
theorem selectProvider_picks_highest_active_first_registered
    (providers : List IAIProvider) (request : AIBrainRequest) (p : IAIProvider)
    (h : selectProvider providers request = some p) :
    p.isActive = true ∧
    (∀ q ∈ providers, q.isActive = true → q.priority ≤ p.priority) ∧
    ∃ l1 l2, providers = l1 ++ p :: l2 ∧
      ∀ q ∈ l1, q.isActive = true → q.priority < p.priority := by
  unfold selectProvider at h
  set act := providers.filter (fun p => p.isActive) with hact
  obtain ⟨tl, hsort⟩ : ∃ tl, act.insertionSort priorityDesc = p :: tl := by
    cases hsrt : act.insertionSort priorityDesc with
    | nil => rw [hsrt] at h; simp at h
    | cons a t =>
      rw [hsrt] at h
      simp only [List.head?, Option.some.injEq] at h
      exact ⟨t, by rw [h]⟩
  have hpact : p ∈ act := (List.mem_insertionSort priorityDesc).mp
    (by rw [hsort]; exact List.mem_cons_self p tl)
  have hpactive : p.isActive = true := (List.mem_filter.mp hpact).2
  refine ⟨hpactive, ?_, ?_⟩
  · intro q hq hqa
    have hqsort : q ∈ act.insertionSort priorityDesc :=
      (List.mem_insertionSort priorityDesc).mpr (List.mem_filter.mpr ⟨hq, hqa⟩)
    have hsorted : (act.insertionSort priorityDesc).Sorted priorityDesc :=
      List.sorted_insertionSort priorityDesc act
    rw [hsort] at hqsort hsorted
    rcases List.mem_cons.mp hqsort with rfl | hqt
    · exact le_refl _
    · exact List.rel_of_sorted_cons hsorted q hqt
  · obtain ⟨a1, a2, hdecomp, hlt⟩ := insertionSort_head_firstMax act p h
    rw [hact] at hdecomp
    obtain ⟨l1, l2, hl, hf1, hf2⟩ := List.filter_eq_append_iff.mp hdecomp
    obtain ⟨l2a, l2b, hl2, hnot, _, _⟩ := List.filter_eq_cons_iff.mp hf2
    refine ⟨l1 ++ l2a, l2b, by rw [hl, hl2, List.append_assoc], ?_⟩
    intro q hq hqa
    rcases List.mem_append.mp hq with hq1 | hq2
    · exact hlt q (by rw [← hf1]; exact List.mem_filter.mpr ⟨hq1, hqa⟩)
    · exact absurd hqa (by simpa using hnot q hq2)

/-- Witness for C1, at the scenario from the claim: with registry
`[a(5, active), b(9, inactive)]`, `selectProvider` returns `a`, and the
theorem's conclusions hold for it. -/
theorem selectProvider_picks_highest_active_first_registered_witness :
    selectProvider [demoProviderA, demoProviderB] demoRequest = some demoProviderA ∧
    (demoProviderA.isActive = true ∧
      (∀ q ∈ [demoProviderA, demoProviderB], q.isActive = true →
        q.priority ≤ demoProviderA.priority) ∧
      ∃ l1 l2, [demoProviderA, demoProviderB] = l1 ++ demoProviderA :: l2 ∧
        ∀ q ∈ l1, q.isActive = true → q.priority < demoProviderA.priority) :=
  ⟨rfl, selectProvider_picks_highest_active_first_registered
    [demoProviderA, demoProviderB] demoRequest demoProviderA rfl⟩

/-- C2 counterexample: with an empty registry (no active provider),
`process` does return a failure envelope without throwing, but its
`error` field is the string `'No suitable AI provider available'` thrown
at the `if (!provider)` check, not `"NoProviderAvailable"` as the claim
states. -/
theorem process_no_provider_error_string_counterexample :
    (process 0 [] demoRequest).success = false ∧
    (process 0 [] demoRequest).error = some "No suitable AI provider available" ∧
    (process 0 [] demoRequest).error ≠ some "NoProviderAvailable" :=
  ⟨rfl, rfl, by decide⟩

/-- C2 (amended): when the registry contains no active provider,
`process` does not throw: for every request it returns an envelope with
`success = false` and `error = "No suitable AI provider available"`. -/
theorem process_no_active_provider (t : Nat) (providers : List IAIProvider)
    (request : AIBrainRequest) (h : ∀ p ∈ providers, p.isActive = false) :
    (process t providers request).success = false ∧
    (process t providers request).error = some "No suitable AI provider available" := by
  have hfil : providers.filter (fun p => p.isActive) = [] := by
    rw [List.filter_eq_nil_iff]
    intro a ha
    simp [h a ha]
  have hsel : selectProvider providers request = none := by
    unfold selectProvider
    rw [hfil]
    rfl
  unfold process
  rw [hsel]
  exact ⟨rfl, rfl⟩

/-- Witness for C2 (amended): a registry holding only the inactive
provider `b` yields the failure envelope. -/
theorem process_no_active_provider_witness :
    (∀ p ∈ [demoProviderB], p.isActive = false) ∧
    ((process 7 [demoProviderB] demoRequest).success = false ∧
     (process 7 [demoProviderB] demoRequest).error =
       some "No suitable AI provider available") :=
  ⟨by decide, process_no_active_provider 7 [demoProviderB] demoRequest (by decide)⟩

/-- C9: `request.fallback` is accepted but never read by `process`
(nor by `selectProvider`): two requests identical except for the
`fallback` flag produce identical responses, `responseTime` (the
elapsed-time parameter `t`) being held equal. -/
theorem process_fallback_noninterference (t : Nat) (providers : List IAIProvider)
    (request : AIBrainRequest) (b : Option Bool) :
    process t providers { request with fallback := b } =
      process t providers request := rfl

/-- The instrumentation is conservative: dropping the trace recovers the
original `dispatchCall`. -/
theorem dispatchCallTr_fst (provider : IAIProvider) (request : AIBrainRequest) :
    (dispatchCallTr provider request).1 = dispatchCall provider request := by
  unfold dispatchCallTr dispatchCall
  cases request.requestType <;> rfl

/-- Dropping the trace from `processTr` recovers `process`. -/
theorem processTr_fst (t : Nat) (providers : List IAIProvider)
    (request : AIBrainRequest) :
    (processTr t providers request).1 = process t providers request := by
  unfold processTr process
  cases selectProvider providers request with
  | none => rfl
  | some provider =>
    dsimp only
    rw [← dispatchCallTr_fst provider request]
    rcases dispatchCallTr provider request with ⟨res, tr⟩
    cases res <;> rfl

/-- A single invocation of `dispatchCallTr` performs at most one
provider-method call, and that call goes to the given provider. -/
theorem dispatchCallTr_trace (provider : IAIProvider) (request : AIBrainRequest) :
    (dispatchCallTr provider request).2.length ≤ 1 ∧
    ∀ e ∈ (dispatchCallTr provider request).2, e.providerName = provider.name := by
  unfold dispatchCallTr
  cases request.requestType <;> simp

/-- C8: if the selected provider's method call fails, `process` returns
`success = false` carrying the captured error message, and the whole
dispatch performed at most one provider-method call, on the selected
provider only: single-provider, single-attempt, no retry, no fallback
chain. -/
theorem process_single_attempt_on_provider_error
    (t : Nat) (providers : List IAIProvider) (request : AIBrainRequest)
    (p : IAIProvider) (msg : String) (tr : List CallEvent)
    (hsel : selectProvider providers request = some p)
    (hcall : dispatchCallTr p request = (Except.error msg, tr)) :
    processTr t providers request =
      ({ success := false, data := none, error := some msg,
         provider := "unknown", model := "unknown",
         responseTime := t, tokensUsed := none, cost := none }, tr) ∧
    tr.length ≤ 1 ∧ ∀ e ∈ tr, e.providerName = p.name := by
  have htr : tr = (dispatchCallTr p request).2 := by rw [hcall]
  obtain ⟨hlen, hev⟩ := dispatchCallTr_trace p request
  refine ⟨?_, by rw [htr]; exact hlen, by rw [htr]; exact hev⟩
  unfold processTr
  rw [hsel]
  dsimp only
  rw [hcall]

/-- Witness for C8: dispatching an `analysis` request to the failing
provider captures `"boom"`, with exactly one call, on that provider. -/
theorem process_single_attempt_on_provider_error_witness :
    processTr 3 [demoFailingProvider] demoRequest =
      ({ success := false, data := none, error := some "boom",
         provider := "unknown", model := "unknown",
         responseTime := 3, tokensUsed := none, cost := none },
       [⟨"f", "analyze"⟩]) ∧
    ([⟨"f", "analyze"⟩] : List CallEvent).length ≤ 1 ∧
    ∀ e ∈ ([⟨"f", "analyze"⟩] : List CallEvent), e.providerName = demoFailingProvider.name :=
  process_single_attempt_on_provider_error 3 [demoFailingProvider] demoRequest
    demoFailingProvider "boom" [⟨"f", "analyze"⟩] rfl rfl

/-- The haversine intermediate `a` vanishes when the two points coincide. -/
theorem havA_self (lat lon : ℝ) : havA lat lon lat lon = 0 := by
  unfold havA
  simp [sub_self]

/-- The haversine intermediate `a` is symmetric in the two points. -/
theorem havA_symm (lat1 lon1 lat2 lon2 : ℝ) :
    havA lat2 lon2 lat1 lon1 = havA lat1 lon1 lat2 lon2 := by
  unfold havA
  rw [show (lat1 - lat2) * Real.pi / 180 / 2 = -((lat2 - lat1) * Real.pi / 180 / 2) by ring,
    show (lon1 - lon2) * Real.pi / 180 / 2 = -((lon2 - lon1) * Real.pi / 180 / 2) by ring]
  simp only [Real.sin_neg]
  ring

/-- Evaluation fact `Math.atan2(0, 1) = 0`. -/
theorem atan2_zero_one : atan2 0 1 = 0 := by
  unfold atan2
  rw [if_pos (by norm_num : (0:ℝ) < 1)]
  norm_num [Real.arctan_zero]

/-- C3: `calculateDistance` (haversine with Earth radius 3959 mi, a pure
deterministic function of its four real arguments) is zero when the two
points coincide and is symmetric under swapping the two points. -/
theorem calculateDistance_zero_self_and_symm (lat1 lon1 lat2 lon2 : ℝ) :
    calculateDistance lat1 lon1 lat1 lon1 = 0 ∧
    calculateDistance lat1 lon1 lat2 lon2 = calculateDistance lat2 lon2 lat1 lon1 := by
  constructor
  · unfold calculateDistance
    rw [havA_self, Real.sqrt_zero, sub_zero, Real.sqrt_one, atan2_zero_one]
    ring
  · unfold calculateDistance
    rw [havA_symm]

/-- C4: every result of `getClinicsByLocation` carries a real (non-`NaN`)
distance that is at most the requested radius. -/
theorem getClinicsByLocation_within_radius (latitude longitude radius : ℝ)
    (clinics : List Clinic) :
    (getClinicsByLocation latitude longitude radius clinics).Forall
      (fun res => ∃ d, res.distance = some d ∧ d ≤ radius) := by
  rw [List.forall_iff_forall_mem]
  intro res hres
  unfold getClinicsByLocation at hres
  have hmem := (List.mem_insertionSort distLe).mp hres
  have hpred := (List.mem_filter.mp hmem).2
  unfold withinRadius at hpred
  rcases hd : res.distance with _ | d
  · rw [hd] at hpred
    simp at hpred
  · rw [hd] at hpred
    exact ⟨d, rfl, of_decide_eq_true hpred⟩

/-- A list whose elements all carry the same distance is `distLe`-pairwise. -/
theorem pairwise_of_const_dist (d : ℝ) :
    ∀ l : List ClinicSearchResult, (∀ x ∈ l, x.distance = some d) →
      l.Pairwise distLe := by
  intro l
  induction l with
  | nil => intro; exact List.Pairwise.nil
  | cons x xs ih =>
    intro h
    refine List.Pairwise.cons ?_ (ih fun y hy => h y (List.mem_cons_of_mem x hy))
    intro y hy
    unfold distLe
    rw [h x (List.mem_cons_self x xs), h y (List.mem_cons_of_mem x hy)]
    exact le_refl d

/-- C5: the result of `getClinicsByLocation` is sorted non-decreasing by
distance, and for every distance value the results carrying it appear
exactly as in the radius-filtered list taken in storage (insertion)
order — equal distances preserve the original order (stability). -/
theorem getClinicsByLocation_sorted_and_stable (latitude longitude radius : ℝ)
    (clinics : List Clinic) :
    (getClinicsByLocation latitude longitude radius clinics).Pairwise distLe ∧
    ∀ d : ℝ,
      (getClinicsByLocation latitude longitude radius clinics).filter
          (fun res => decide (res.distance = some d)) =
        ((clinics.map (fun clinic => ⟨clinic, clinicDistance latitude longitude clinic⟩)).filter
          (withinRadius radius)).filter (fun res => decide (res.distance = some d)) := by
  constructor
  · exact List.sorted_insertionSort distLe _
  · intro d
    set pre := ((clinics.map
      (fun clinic => ⟨clinic, clinicDistance latitude longitude clinic⟩)).filter
        (withinRadius radius)) with hpre
    set p := (fun res : ClinicSearchResult => decide (res.distance = some d)) with hp
    have hconst : ∀ x ∈ pre.filter p, x.distance = some d := by
      intro x hx
      have hx2 := (List.mem_filter.mp hx).2
      rw [hp] at hx2
      exact of_decide_eq_true hx2
    have hpair : (pre.filter p).Pairwise distLe := pairwise_of_const_dist d _ hconst
    have hsub : List.Sublist (pre.filter p) (pre.insertionSort distLe) :=
      List.sublist_insertionSort hpair (List.filter_sublist pre)
    have hself : (pre.filter p).filter p = pre.filter p :=
      List.filter_eq_self.mpr (fun a ha => (List.mem_filter.mp ha).2)
    have hsub2 : List.Sublist (pre.filter p) ((pre.insertionSort distLe).filter p) := by
      rw [← hself]
      exact hsub.filter p
    have hperm : List.Perm ((pre.insertionSort distLe).filter p) (pre.filter p) :=
      (List.perm_insertionSort distLe pre).filter p
    have heq : pre.filter p = (pre.insertionSort distLe).filter p :=
      hsub2.eq_of_length hperm.length_eq.symm
    unfold getClinicsByLocation
    rw [← hpre]
    exact heq.symm

/-- C7: a stored clinic whose latitude or longitude fails to parse gets a
`NaN` distance, fails the `<= radius` comparison, and is therefore
silently excluded from every `getClinicsByLocation` result; the
operation itself is total (it raises no error). -/
theorem getClinicsByLocation_excludes_malformed (latitude longitude radius : ℝ)
    (clinics : List Clinic) (c : Clinic) (_hstore : c ∈ clinics)
    (hbad : c.latitude = none ∨ c.longitude = none) :
    ∀ res ∈ getClinicsByLocation latitude longitude radius clinics,
      res.clinic ≠ c := by
  intro res hres heq
  unfold getClinicsByLocation at hres
  have hm := (List.mem_insertionSort distLe).mp hres
  obtain ⟨hmap, hpred⟩ := List.mem_filter.mp hm
  obtain ⟨cl, _hcl, hres_eq⟩ := List.mem_map.mp hmap
  have hdist : res.distance = clinicDistance latitude longitude cl := by
    rw [← hres_eq]
  have hclin : cl = c := by
    rw [← heq, ← hres_eq]
  have hnone : clinicDistance latitude longitude c = none := by
    unfold clinicDistance
    rcases hbad with hb | hb
    · rw [hb]
    · cases hl : c.latitude with
      | none => rfl
      | some v => rw [hb]
  rw [hclin, hnone] at hdist
  unfold withinRadius at hpred
  rw [hdist] at hpred
  simp at hpred

/-- Witness for C7: a store holding only the clinic with malformed
coordinates yields no result containing it (the result list is empty). -/
theorem getClinicsByLocation_excludes_malformed_witness :
    demoClinic ∈ [demoClinic] ∧
    (demoClinic.latitude = none ∨ demoClinic.longitude = none) ∧
    ∀ res ∈ getClinicsByLocation 0 0 10 [demoClinic], res.clinic ≠ demoClinic :=
  ⟨List.mem_cons_self demoClinic [], Or.inl rfl,
    getClinicsByLocation_excludes_malformed 0 0 10 [demoClinic] demoClinic
      (List.mem_cons_self demoClinic []) (Or.inl rfl)⟩

/-- The check `charsStartWith l pat` holds exactly when `pat` is a prefix of `l`. -/
theorem charsStartWith_iff (pat : List Char) :
    ∀ l : List Char, charsStartWith l pat = true ↔ ∃ rest, l = pat ++ rest := by
  induction pat with
  | nil =>
    intro l
    constructor
    · intro
      exact ⟨l, rfl⟩
    · intro
      cases l <;> rfl
  | cons d ds ih =>
    intro l
    cases l with
    | nil =>
      constructor
      · intro h
        exact absurd h (by simp [charsStartWith])
      · rintro ⟨rest, h⟩
        exact absurd h (by simp)
    | cons c cs =>
      simp only [charsStartWith, Bool.and_eq_true, beq_iff_eq, ih cs]
      constructor
      · rintro ⟨rfl, rest, rfl⟩
        exact ⟨rest, rfl⟩
      · rintro ⟨rest, h⟩
        injection h with h1 h2
        exact ⟨h1, rest, h2⟩

/-- The check `charsInclude pat l` holds exactly when `pat` occurs contiguously in
`l`. -/
theorem charsInclude_iff (pat : List Char) :
    ∀ l : List Char, charsInclude pat l = true ↔
      ∃ pre post, l = pre ++ pat ++ post := by
  intro l
  induction l with
  | nil =>
    simp only [charsInclude, List.isEmpty_iff]
    constructor
    · rintro rfl
      exact ⟨[], [], rfl⟩
    · rintro ⟨pre, post, h⟩
      rcases List.append_eq_nil.mp ((List.append_eq_nil.mp h.symm).1) with ⟨_, hpat⟩
      exact hpat
  | cons c cs ih =>
    simp only [charsInclude, Bool.or_eq_true, charsStartWith_iff, ih]
    constructor
    · rintro (⟨rest, h⟩ | ⟨pre, post, h⟩)
      · exact ⟨[], rest, by simp [h]⟩
      · exact ⟨c :: pre, post, by simp [h]⟩
    · rintro ⟨pre, post, h⟩
      cases pre with
      | nil => exact Or.inl ⟨post, by simpa using h⟩
      | cons p ps =>
        right
        injection h with h1 h2
        exact ⟨ps, post, h2⟩

/-- The check `strIncludes` agrees with the substring-occurrence property. -/
theorem strIncludes_iff (hay ned : String) :
    strIncludes hay ned = true ↔ SubstrOf ned hay := by
  unfold strIncludes SubstrOf
  exact charsInclude_iff ned.data hay.data

/-- C6 counterexample: the claim requires an exact category match
whenever a type filter is supplied, but supplying the (JS-falsy) empty
string filter matches every clinic: the `"hospital"` clinic is returned
even though its type differs from the supplied filter `""`. -/
theorem searchClinics_empty_type_filter_counterexample :
    searchClinics "a" (some "") [demoClinic] = [demoClinic] ∧
    demoClinic.type ≠ "" :=
  ⟨rfl, by decide⟩

/-- C6 (amended): `searchClinics` returns exactly the clinics whose
lower-cased name or address contains the lower-cased query as a
substring, intersected with an exact `type` match when the supplied type
filter is non-empty (an empty-string filter, being falsy in
`!type || clinic.type === type`, matches everything, as does an absent
one); the result is a sublist of the store, i.e. in insertion order with
no ranking. -/
theorem searchClinics_characterization (query : String) (type? : Option String)
    (clinics : List Clinic) :
    (∀ c, c ∈ searchClinics query type? clinics ↔
      c ∈ clinics ∧ MatchesQuerySpec query c ∧ MatchesTypeSpec type? c) ∧
    List.Sublist (searchClinics query type? clinics) clinics := by
  constructor
  · intro c
    unfold searchClinics
    rw [List.mem_filter]
    constructor
    · rintro ⟨hmem, hpred⟩
      simp only [Bool.and_eq_true, Bool.or_eq_true] at hpred
      obtain ⟨hq, ht⟩ := hpred
      refine ⟨hmem, ?_, ?_⟩
      · unfold MatchesQuerySpec
        rcases hq with h | h
        · exact Or.inl ((strIncludes_iff _ _).mp h)
        · exact Or.inr ((strIncludes_iff _ _).mp h)
      · intro t htEq hne
        rw [htEq] at ht
        simp only [Bool.or_eq_true, beq_iff_eq] at ht
        rcases ht with h | h
        · exact absurd h hne
        · exact h
    · rintro ⟨hmem, hquery, htype⟩
      refine ⟨hmem, ?_⟩
      simp only [Bool.and_eq_true, Bool.or_eq_true]
      constructor
      · unfold MatchesQuerySpec at hquery
        rcases hquery with h | h
        · exact Or.inl ((strIncludes_iff _ _).mpr h)
        · exact Or.inr ((strIncludes_iff _ _).mpr h)
      · cases htq : type? with
        | none => rfl
        | some t =>
          by_cases hne : t = ""
          · simp [hne]
          · simp only [Bool.or_eq_true, beq_iff_eq]
            exact Or.inr (htype t htq hne)
  · exact List.filter_sublist _

/-- C10: a request body whose `latitude` or `longitude` is the valid
coordinate `0` never reaches the coordinate branch of the
`POST /api/clinics/search` handler, because the guard
`latitude && longitude` treats `0` as falsy; such a request falls
through to the geocoding, text-search, or all-clinics branch. -/
theorem clinicsSearchBranch_zero_coordinate (location : Option String)
    (latitude longitude : Option ℚ) (query : Option String)
    (h : latitude = some 0 ∨ longitude = some 0) :
    clinicsSearchBranch location latitude longitude query ≠ SearchBranch.coords ∧
    (clinicsSearchBranch location latitude longitude query = SearchBranch.geocode ∨
     clinicsSearchBranch location latitude longitude query = SearchBranch.text ∨
     clinicsSearchBranch location latitude longitude query = SearchBranch.all) := by
  have hfalse : (numTruthy latitude && numTruthy longitude) = false := by
    rcases h with rfl | rfl
    · simp [numTruthy]
    · simp [numTruthy]
  unfold clinicsSearchBranch
  rw [hfalse]
  split_ifs <;> simp_all

/-- Witness for C10: `latitude = 0`, `longitude = 5`, no location or
query: the handler takes the all-clinics branch, not the coordinate
branch. -/
theorem clinicsSearchBranch_zero_coordinate_witness :
    ((some 0 : Option ℚ) = some 0 ∨ (some 5 : Option ℚ) = some 0) ∧
    (clinicsSearchBranch none (some 0) (some 5) none ≠ SearchBranch.coords ∧
     (clinicsSearchBranch none (some 0) (some 5) none = SearchBranch.geocode ∨
      clinicsSearchBranch none (some 0) (some 5) none = SearchBranch.text ∨
      clinicsSearchBranch none (some 0) (some 5) none = SearchBranch.all)) :=
  ⟨Or.inl rfl,
    clinicsSearchBranch_zero_coordinate none (some 0) (some 5) none (Or.inl rfl)⟩

end HealthLink
